import Mathlib

/-!
Verification development for the mcp-agentapi repository.

This file gives a shallow embedding, in Lean 4, of the core subsystems of the
repository — the event-stream bridge of src/api_client.py (buffering, ordering,
deduplication, reconnection), the process-lifecycle supervisor of
src/agent_manager.py (start/stop/restart/switch with category and per-agent
locks), and the resource tracker of src/resource_manager.py — together with
theorems settling the specification claims about them.

Modelling conventions:
* Python floats (timestamps, delays) are modelled as rational numbers `ℚ`.
* Python `hash(s)` on strings is modelled as an injective abstraction: the key
  simply stores the hashed string itself (equality of keys then coincides with
  equality of the hashed strings; genuine hash collisions are abstracted away).
* A Python dict event `{"type": ..., "id": ..., "data": ..., "timestamp": ...}`
  is modelled by the structure `Ev`; the `data` dict by `EvData`, whose `asStr`
  field stands for `str(event_data)` (used for hashing unrecognised kinds).
* Python's stable `list.sort(key=...)` is modelled by sorting index-decorated
  events under the lexicographic order on (key, original index), which is the
  unique result any stable sort by key produces.
-/

/-- Agent types, from `AgentType` in src/src/models.py. -/
inductive AgentTy where
  | claude
  | goose
  | aider
  | codex
  | custom
  deriving DecidableEq, Repr

/-- Running status of an agent, from `AgentRunningStatus` in src/src/agent_manager.py. -/
inductive AgentRunningStatusM where
  | running
  | stopped
  | unknown
  deriving DecidableEq, Repr

/-- The `data` dict of a stream event. `id`, `message`, `status`, `screen` model
the correspondingly named entries (each defaulting to `""` as the code's
`.get(k, "")` does); `asStr` models `str(event_data)`. -/
structure EvData where
  id : String := ""
  message : String := ""
  status : String := ""
  screen : String := ""
  asStr : String := ""
  deriving DecidableEq, Repr

/-- One buffered stream event, as assembled by `stream_events` in
src/src/api_client.py: a `type`, an optional SSE `id` (a string), the parsed
`data` payload, and a `timestamp` (a float, modelled as `ℚ`). -/
structure Ev where
  type : String
  id : Option String := none
  data : EvData := {}
  timestamp : ℚ := 0
  deriving DecidableEq, Repr

/-- Digit value of a character, for modelling Python `str.isdigit` / `int`
on ASCII digit strings. -/
def charDigit? (c : Char) : Option ℕ :=
  if '0' ≤ c && c ≤ '9' then some (c.toNat - '0'.toNat) else none

/-- Accumulating base-10 parse of a character list; `none` on any non-digit. -/
def digitsToNat? : List Char → ℕ → Option ℕ
  | [], acc => some acc
  | c :: cs, acc =>
    match charDigit? c with
    | some d => digitsToNat? cs (acc * 10 + d)
    | none => none

/-- Models `s.isdigit() and int(s)` for a Python string: `some n` exactly when
`s` is a nonempty string of digits with numeric value `n`. -/
def pyStrDigits? (s : String) : Option ℕ :=
  if s.data.isEmpty then none else digitsToNat? s.data 0

/-- Models the Python guard `e.get("id") and e.get("id").isdigit()` together
with `int(e["id"])`: returns `some n` exactly when the SSE id is a nonempty
digit string, in which case `n` is its numeric value. -/
def msgDigitId (e : Ev) : Option Nat :=
  match e.id with
  | some s => pyStrDigits? s
  | none => none

/-- Models `e.get("type") in ["screen_update", "screen"]`. -/
def isScreenType (e : Ev) : Prop :=
  e.type = "screen_update" ∨ e.type = "screen"

instance (e : Ev) : Decidable (isScreenType e) :=
  inferInstanceAs (Decidable (_ ∨ _))

/-- First sort-key component from `process_event_buffer` (src/src/api_client.py,
lines 1677-1702): 0 for status_change, 1 for message_update with a digit id,
2 for screen kinds, 3 otherwise. -/
def sortPrio (e : Ev) : ℚ :=
  if e.type = "status_change" then 0
  else if e.type = "message_update" ∧ (msgDigitId e).isSome then 1
  else if isScreenType e then 2
  else 3

/-- Second sort-key component: `-timestamp` for status_change, else 0. -/
def sortKeyStatusTs (e : Ev) : ℚ :=
  if e.type = "status_change" then -e.timestamp else 0

/-- Third sort-key component: `int(id)` for message_update with digit id, else 0. -/
def sortKeyMsgId (e : Ev) : ℚ :=
  if e.type = "message_update" ∧ (msgDigitId e).isSome then
    (((msgDigitId e).getD 0 : ℕ) : ℚ)
  else 0

/-- Fourth sort-key component: `-timestamp` for screen kinds, else 0. -/
def sortKeyScreenTs (e : Ev) : ℚ :=
  if isScreenType e then -e.timestamp else 0

/-- The lexicographic sort key of `process_event_buffer`'s `sort`, decorated
with the original buffer index as the final component to model the stability
of Python's sort. -/
def lexKey (p : ℕ × Ev) : ℚ ×ₗ (ℚ ×ₗ (ℚ ×ₗ (ℚ ×ₗ (ℚ ×ₗ ℕ)))) :=
  toLex (sortPrio p.2, toLex (sortKeyStatusTs p.2, toLex (sortKeyMsgId p.2,
    toLex (sortKeyScreenTs p.2, toLex (p.2.timestamp, p.1)))))

/-- Comparison used to model the stable `event_buffer.sort(key=...)`. -/
def sortLe (p q : ℕ × Ev) : Prop := lexKey p ≤ lexKey q

instance : DecidableRel sortLe :=
  fun p q => inferInstanceAs (Decidable (lexKey p ≤ lexKey q))

instance : IsTotal (ℕ × Ev) sortLe :=
  ⟨fun p q => le_total (lexKey p) (lexKey q)⟩

instance : IsTrans (ℕ × Ev) sortLe :=
  ⟨fun _ _ _ h h2 => le_trans h h2⟩

/-- The sorting phase of `process_event_buffer` (src/src/api_client.py, lines
1677-1702): Python's stable sort by the 5-component key, modelled by sorting
(index, event) pairs under the total order `sortLe`. -/
def sortEvents (buf : List Ev) : List Ev :=
  ((buf.enum).insertionSort sortLe).map Prod.snd

/-- Deduplication keys built by `process_event_buffer` (src/src/api_client.py,
lines 1722-1775). Hashes are modelled injectively: the constructor stores the
hashed (truncated) string itself. -/
inductive EventKey where
  | messageUpdate (id : String) (contentHash : String)
  | statusChange (status : String) (tsBucket : ℤ)
  | screenK (screenHash : String) (tsBucket : ℚ)
  | otherK (type : String) (dataHash : String)
  deriving DecidableEq, Repr

/-- Python `int(q)` on a float: truncation toward zero. For a rational in
lowest terms this is the numerator divided by the denominator with truncated
(T-)division. -/
def pyInt (q : ℚ) : ℤ :=
  q.num.tdiv q.den

/-- Models `message[:1000] if len(message) > 1000 else message` (Python slicing
takes the first 1000 characters; modelled on the character list). -/
def truncate1000 (s : String) : String := String.mk (s.data.take 1000)

/-- Models `message_id = event_id or event_data.get("id", "")` where
`event_id = event.get("id", "")` (Python falsiness of the empty string). -/
def resolvedMessageId (e : Ev) : String :=
  let eventId := e.id.getD ""
  if eventId ≠ "" then eventId else e.data.id

/-- The composite deduplication key per event kind, exactly as computed in
`process_event_buffer` (src/src/api_client.py, lines 1722-1775):
message_update → (resolved id, hash of content truncated to 1000 chars);
status_change → (status value, timestamp truncated to whole seconds);
screen kinds → (hash of screen truncated to 1000 chars, `int(ts*10)/10`);
anything else → (event type, hash of `str(event_data)`), with no timestamp. -/
def eventKey (e : Ev) : EventKey :=
  if e.type = "message_update" then
    .messageUpdate (resolvedMessageId e) (truncate1000 e.data.message)
  else if e.type = "status_change" then
    .statusChange e.data.status (pyInt e.timestamp)
  else if isScreenType e then
    .screenK (truncate1000 e.data.screen) ((pyInt (e.timestamp * 10) : ℚ) / 10)
  else
    .otherK e.type e.data.asStr

/-- The deduplication-and-filter pass over the sorted batch
(src/src/api_client.py, lines 1710-1779): raw `screen_update` events are
filtered out of the main stream; each remaining event is kept only if its
`eventKey` has not been seen earlier in the batch. -/
def dedupEvents : List Ev → List EventKey → List Ev
  | [], _ => []
  | e :: rest, seen =>
    if e.type = "screen_update" then dedupEvents rest seen
    else
      let k := eventKey e
      if k ∈ seen then dedupEvents rest seen
      else e :: dedupEvents rest (k :: seen)

/-- One drain cycle of `process_event_buffer`: sort the buffered batch, then
deduplicate/filter; the resulting list is dispatched to `server.notify` one
event at a time, in order. -/
def processEventBuffer (buf : List Ev) : List Ev :=
  dedupEvents (sortEvents buf) []

/-- Event-buffer capacity, from `EVENT_BUFFER_SIZE` in src/src/constants.py. -/
def EVENT_BUFFER_SIZE : ℕ := 1024

/-- The `buffer_event` coroutine of src/src/api_client.py (lines 1874-1901):
if the buffer is at (or beyond) capacity, `event_buffer.pop(0)` drops the
oldest event (the head, since arrivals append at the tail), then the new event
is appended. -/
def bufferEvent (e : Ev) (buf : List Ev) : List Ev :=
  if EVENT_BUFFER_SIZE ≤ buf.length then buf.tail ++ [e] else buf ++ [e]

/-- Event class used to state ordering claims in the claim's own vocabulary:
0 = status_change, 1 = message_update with a numeric id, 2 = screen kinds,
3 = everything else. -/
def evClass (e : Ev) : ℕ :=
  if e.type = "status_change" then 0
  else if e.type = "message_update" ∧ (msgDigitId e).isSome then 1
  else if isScreenType e then 2
  else 3

/-- Numeric message id (0 when absent), used to state ordering claims. -/
def msgIdNum (e : Ev) : ℕ := (msgDigitId e).getD 0

/-- Modelled from the spec: the ordering the claim asserts for one drain
cycle — status_change first (most-recent-first by timestamp), then
message_update ascending by numeric id, then screen/other events
most-recent-first, residual ties broken by timestamp. Two events are in
claimed order when their classes ascend or, within one class, the claimed
intra-class order holds. -/
def specClass (e : Ev) : ℕ :=
  if e.type = "status_change" then 0
  else if e.type = "message_update" ∧ (msgDigitId e).isSome then 1
  else 2

/-- Modelled from the spec: lexicographic sort key realizing the claimed
order, with the original index as final component (stability). -/
def specLexKey (p : ℕ × Ev) : ℕ ×ₗ (ℚ ×ₗ (ℚ ×ₗ ℕ)) :=
  toLex (specClass p.2,
    toLex (if specClass p.2 = 1 then ((msgIdNum p.2 : ℕ) : ℚ) else -p.2.timestamp,
      toLex (p.2.timestamp, p.1)))

/-- Modelled from the spec: comparison for the claimed sort order. -/
def specSortLe (p q : ℕ × Ev) : Prop := specLexKey p ≤ specLexKey q

instance : DecidableRel specSortLe :=
  fun p q => inferInstanceAs (Decidable (specLexKey p ≤ specLexKey q))

/-- Modelled from the spec: the sorted batch the claim predicts. -/
def specSortEvents (buf : List Ev) : List Ev :=
  ((buf.enum).insertionSort specSortLe).map Prod.snd

/-- The order the code actually establishes within one drained batch:
classes ascend; within status_change, most-recent-first; within numeric
message_update, ascending id with ties most-oldest-first; within screen
kinds, most-recent-first; within the residual class, oldest-first. -/
def codeBatchOrder (a b : Ev) : Prop :=
  evClass a < evClass b ∨
    (evClass a = evClass b ∧
      ((evClass a = 0 → b.timestamp ≤ a.timestamp) ∧
       (evClass a = 1 →
         msgIdNum a ≤ msgIdNum b ∧ (msgIdNum a = msgIdNum b → a.timestamp ≤ b.timestamp)) ∧
       (evClass a = 2 → b.timestamp ≤ a.timestamp) ∧
       (evClass a = 3 → a.timestamp ≤ b.timestamp)))

/-- Modelled from the spec: the deduplication key shape the claim asserts —
message_update → (id, content-hash); status_change → (status value, timestamp
rounded to 1s); screen/other → (content-hash, timestamp rounded to 100ms). -/
inductive SpecKey where
  | msg (id : String) (contentHash : String)
  | statusK (statusVal : String) (secBucket : ℤ)
  | screenOther (contentHash : String) (tenthsBucket : ℤ)
  deriving DecidableEq, Repr

/-- Timestamp in whole 100ms units (truncation), used by the spec-side key. -/
def pyTenths (q : ℚ) : ℤ := (q.num * 10).tdiv q.den

/-- Modelled from the spec: the per-kind dedup key exactly as the claim words
it; in particular screen and other kinds share the shape
(content-hash, timestamp rounded to 100ms). -/
def specDedupKey (e : Ev) : SpecKey :=
  if e.type = "message_update" then .msg (resolvedMessageId e) e.data.message
  else if e.type = "status_change" then .statusK e.data.status (pyInt e.timestamp)
  else .screenOther (if isScreenType e then e.data.screen else e.data.asStr)
    (pyTenths e.timestamp)

/-- A 1001-character message: 1000 copies of 'a' followed by 'x'. -/
def longMsgX : String := String.mk (List.replicate 1000 'a' ++ ['x'])

/-- A 1001-character message: 1000 copies of 'a' followed by 'y'. -/
def longMsgY : String := String.mk (List.replicate 1000 'a' ++ ['y'])

/-- The first of two 1001-character message_update events used to refute C3. -/
def ceMsgX : Ev := { type := "message_update", id := some "7", data := { message := longMsgX } }

/-- Companion event differing from `ceMsgX` only in the 1001st content char. -/
def ceMsgY : Ev := { type := "message_update", id := some "7", data := { message := longMsgY } }

/-- Concrete message_update event used in witnesses. -/
def wMsgA : Ev := { type := "message_update", id := some "5", data := { message := "hello" }, timestamp := 1 }

/-- Same id and content as `wMsgA`, later timestamp. -/
def wMsgB : Ev := { type := "message_update", id := some "5", data := { message := "hello" }, timestamp := 2 }

/-- Same id as `wMsgA`, different content. -/
def wMsgC : Ev := { type := "message_update", id := some "5", data := { message := "other" }, timestamp := 3 }

/-- Unrecognised-kind event used in witnesses. -/
def wOther1 : Ev := { type := "heartbeat", data := { asStr := "hb" }, timestamp := 0 }

/-- Same data as `wOther1`, one minute later. -/
def wOther2 : Ev := { type := "heartbeat", data := { asStr := "hb" }, timestamp := 60 }

/-- Concrete status_change event used in the C5 witness. -/
def dummyEv : Ev := { type := "status_change", data := { status := "running" } }

/-- Exit reasons of the adaptive start-wait loop in `AgentManager.start_agent`
(src/src/agent_manager.py, lines 973-999): liveness validation succeeded,
the subprocess exited, or the 30s budget elapsed. -/
inductive StartExit where
  | validated
  | procExited
  | timedOut
  deriving DecidableEq, Repr

/-- Process-cleanup calls issued on the timeout path of `start_agent`:
`process.terminate()`, `process.wait(timeout=5)`, `process.kill()`. -/
inductive ProcAction where
  | terminate
  | wait5
  | kill
  deriving DecidableEq, Repr

/-- The adaptive waiting loop of `start_agent` (src/src/agent_manager.py,
lines 969-999). `exited n` models `process.poll() is not None` at attempt `n`;
`valid n` models `await self._validate_agent_running(...)` at attempt `n`;
`elapsed` models the accumulated sleep time (`time.time() - start_time`,
abstracting the cost of the probes themselves); `interval` is the current
`wait_interval`. Returns the exit reason and the list of sleeps performed,
or `none` if the structural fuel runs out (shown impossible below). -/
def startPollGo (exited valid : ℕ → Bool) :
    ℕ → ℕ → ℚ → ℚ → Option (StartExit × List ℚ)
  | 0, _, _, _ => none
  | fuel + 1, n, elapsed, interval =>
    if elapsed < 30 then
      if exited n then some (.procExited, [])
      else if valid n then some (.validated, [])
      else
        match startPollGo exited valid fuel (n + 1) (elapsed + interval)
            (min (interval * (3 / 2)) 5) with
        | none => none
        | some (ex, sleeps) => some (ex, interval :: sleeps)
    else some (.timedOut, [])

/-- The wait-interval schedule of `start_agent`: starts at 1.0s and is updated
by `wait_interval = min(wait_interval * 1.5, 5.0)` after each failed attempt. -/
def intervalAt : ℕ → ℚ
  | 0 => 1
  | n + 1 => min (intervalAt n * (3 / 2)) 5

/-- Result of the start-wait phase of `start_agent`. -/
inductive StartResult where
  | ok (pid : ℕ)
  | startError (stderr : String)
  | timeoutError (cleanup : List ProcAction)
  deriving DecidableEq, Repr

/-- The slice of an `AgentInfo` descriptor that start/stop mutate:
`running_status` and the owned process handle. -/
structure AgentSt where
  runningStatus : AgentRunningStatusM
  process : Option ℕ
  deriving DecidableEq, Repr

/-- The start-wait phase of `start_agent` after spawning (src/src/agent_manager.py,
lines 965-1007): run the polling loop with initial interval 1.0 and elapsed 0;
on validation store the handle and mark RUNNING; on subprocess exit raise
`AgentStartError` with the captured stderr; on timeout terminate the process
(graceful `terminate()`, `wait(5)`, then `kill()` if the wait times out, per
`termWaitOk`) and raise `TimeoutError`. Fuel 31 suffices since every sleep
lasts at least 1s against the 30s budget. -/
def startAgentWait (exited valid : ℕ → Bool) (termWaitOk : Bool) (stderr : String)
    (pid : ℕ) (info : AgentSt) : Option (StartResult × AgentSt × List ℚ) :=
  match startPollGo exited valid 31 0 0 1 with
  | none => none
  | some (.procExited, sleeps) => some (.startError stderr, info, sleeps)
  | some (.validated, sleeps) =>
    some (.ok pid, { runningStatus := .running, process := some pid }, sleeps)
  | some (.timedOut, sleeps) =>
    some (.timeoutError (if termWaitOk then [.terminate, .wait5]
      else [.terminate, .wait5, .kill]), info, sleeps)

/-- Reconnection parameters of `AgentAPIClient.stream_events`
(src/src/api_client.py, lines 1040-1099); defaults come from
src/src/constants.py. -/
structure ReconnectCfg where
  reconnect : Bool
  maxAttempts : ℕ
  initialDelay : ℚ
  maxDelay : ℚ
  backoffFactor : ℚ
  jitter : ℚ
  deriving DecidableEq, Repr

/-- Mutable reconnection state of the `while True` loop in `stream_events`:
the `attempt` counter and the current backoff `delay`. -/
structure ReconnectSt where
  attempt : ℕ
  delay : ℚ
  deriving DecidableEq, Repr

/-- Transport-error kinds caught by `stream_events`' outer handler
(`httpx.HTTPError`, `httpx.StreamError`, `httpx.TimeoutException`). -/
inductive TransportErr where
  | timeout
  | http
  | stream
  deriving DecidableEq, Repr

/-- Failures `stream_events` raises to its caller: `TimeoutError` when
reconnection is disabled and the transport error was a timeout;
`AgentAPIError` when reconnection is disabled otherwise; and the terminal
`AgentAPIError` once the attempt budget is exhausted. -/
inductive StreamFailure where
  | timeoutErr
  | apiErr
  | terminal
  deriving DecidableEq, Repr

/-- On successful connection `stream_events` resets `attempt = 0` and
`delay = reconnect_initial_delay` (src/src/api_client.py, lines 1112-1114). -/
def onStreamConnect (cfg : ReconnectCfg) (_st : ReconnectSt) : ReconnectSt :=
  { attempt := 0, delay := cfg.initialDelay }

/-- The transport-error handler of `stream_events` (src/src/api_client.py,
lines 1213-1243): propagate if reconnection is disabled (timeout errors as
`TimeoutError`, the rest as `AgentAPIError`); bump the attempt counter and
fail terminally once it exceeds `max_reconnect_attempts`; otherwise grow the
delay by the backoff factor capped at the max delay, and sleep
`max(0.1, delay + u)` where `u` models the jitter sample drawn uniformly from
`[-delay*jitter, delay*jitter]`. -/
def onTransportError (cfg : ReconnectCfg) (st : ReconnectSt) (kind : TransportErr)
    (u : ℚ) : Except StreamFailure (ReconnectSt × ℚ) :=
  if ¬cfg.reconnect then
    .error (match kind with | .timeout => .timeoutErr | _ => .apiErr)
  else
    let attempt := st.attempt + 1
    if cfg.maxAttempts < attempt then .error .terminal
    else
      let delay := min (st.delay * cfg.backoffFactor) cfg.maxDelay
      let actualDelay := max (1 / 10) (delay + u)
      .ok ({ attempt := attempt, delay := delay }, actualDelay)

/-- One observed cycle of the `while True` loop: either a successful
connection (which later drops with some transport error handled by the next
cycle) or an immediate transport failure with its jitter sample. -/
inductive StreamCycle where
  | connected
  | failed (kind : TransportErr) (u : ℚ)

/-- The reconnection loop of `stream_events` folded over a trace of observed
cycles, threading the attempt/delay state and stopping at the first raised
failure. -/
def streamLoop (cfg : ReconnectCfg) : ReconnectSt → List StreamCycle → Except StreamFailure ReconnectSt
  | st, [] => .ok st
  | st, .connected :: rest => streamLoop cfg (onStreamConnect cfg st) rest
  | st, .failed k u :: rest =>
    match onTransportError cfg st k u with
    | .error e => .error e
    | .ok (st2, _) => streamLoop cfg st2 rest

/-- Default reconnect delay, from src/src/constants.py. -/
def DEFAULT_RECONNECT_DELAY : ℚ := 5

/-- Maximum reconnect attempts, from src/src/constants.py. -/
def MAX_RECONNECT_ATTEMPTS : ℕ := 5

/-- Maximum retry delay, from src/src/constants.py. -/
def DEFAULT_RETRY_MAX_DELAY : ℚ := 30

/-- Retry backoff factor, from src/src/constants.py. -/
def DEFAULT_RETRY_BACKOFF_FACTOR : ℚ := 2

/-- Retry jitter fraction, from src/src/constants.py. -/
def DEFAULT_RETRY_JITTER : ℚ := 1 / 10

/-- The default `stream_events` reconnect configuration. -/
def defaultStreamCfg : ReconnectCfg :=
  { reconnect := true, maxAttempts := MAX_RECONNECT_ATTEMPTS,
    initialDelay := DEFAULT_RECONNECT_DELAY, maxDelay := DEFAULT_RETRY_MAX_DELAY,
    backoffFactor := DEFAULT_RETRY_BACKOFF_FACTOR, jitter := DEFAULT_RETRY_JITTER }

/-- A lock of `AgentManager`: one category lock per operation kind
(`_operation_locks`) and one per-agent lock (`_agent_locks`), all plain
non-reentrant `asyncio.Lock` objects (src/src/agent_manager.py, lines 108-118). -/
inductive PyLock where
  | category (op : String)
  | agentL (a : AgentTy)
  deriving DecidableEq, Repr

/-- A lock acquire or release step performed by the single asyncio task. -/
inductive LockOp where
  | acq (l : PyLock)
  | rel (l : PyLock)
  deriving DecidableEq, Repr

/-- Single-task execution of a lock trace. `asyncio.Lock` is not reentrant:
when the only running task awaits `acquire()` on a lock it already holds,
nothing can ever release it, so execution blocks forever — modelled as `none`.
Otherwise the trace runs to completion and yields the final held-lock set. -/
def runLockTrace : List LockOp → List PyLock → Option (List PyLock)
  | [], held => some held
  | .acq l :: rest, held =>
    if l ∈ held then none else runLockTrace rest (l :: held)
  | .rel l :: rest, held => runLockTrace rest (held.erase l)

/-- The lock behaviour of `AgentManager._track_operation`
(src/src/agent_manager.py, lines 140-208): acquire the category lock, then the
per-agent lock, run the body, and release in reverse order. -/
def trackOperationTrace (op : String) (agent : AgentTy) (body : List LockOp) : List LockOp :=
  [.acq (.category op), .acq (.agentL agent)] ++ body ++
    [.rel (.agentL agent), .rel (.category op)]

/-- Lock trace of `stop_agent` (its body takes no further locks). -/
def stopAgentLockTrace (a : AgentTy) : List LockOp := trackOperationTrace "stop" a []

/-- Lock trace of `start_agent` (its body takes no further locks). -/
def startAgentLockTrace (a : AgentTy) : List LockOp := trackOperationTrace "start" a []

/-- Lock trace of `restart_agent` (src/src/agent_manager.py, lines 1305-1359):
inside `_track_operation("restart", agent)` it awaits `stop_agent` when the
descriptor records the agent as running, then awaits `start_agent`. -/
def restartAgentLockTrace (a : AgentTy) (running : Bool) : List LockOp :=
  trackOperationTrace "restart" a
    ((if running then stopAgentLockTrace a else []) ++ startAgentLockTrace a)

/-- Lock trace of `switch_agent` (src/src/agent_manager.py, lines 1510-1577):
inside `_track_operation("switch", target)` it returns early if the target is
the running agent, otherwise awaits `stop_agent` on the running agent (if any)
and then `start_agent` on the target. -/
def switchAgentLockTrace (target : AgentTy) (runningAgent : Option AgentTy) : List LockOp :=
  trackOperationTrace "switch" target
    (match runningAgent with
     | some r => if r = target then [] else stopAgentLockTrace r ++ startAgentLockTrace target
     | none => startAgentLockTrace target)

/-- Process calls `stop_agent` can issue on the tracked process handle. -/
inductive StopCall where
  | poll
  | terminate
  | kill
  | waitFor (t : ℚ)
  deriving DecidableEq, Repr

/-- The two `AgentStopError` conditions of `stop_agent`: the process survived
`kill()` + `wait(3)`, or the agent still answered the post-termination
liveness re-validation. -/
inductive StopErr where
  | killFailed
  | stillResponding
  deriving DecidableEq, Repr

/-- Environment oracles for one `stop_agent` run: whether `poll()` reports the
stale process as exited, whether the graceful `wait(timeout)` returned in
time, whether the post-`kill()` `wait(3)` returned in time, and whether
`_validate_agent_running` still succeeds after termination. -/
structure StopEnv where
  pollExited : Bool
  gracefulWaitOk : Bool
  killWaitOk : Bool
  stillResponding : Bool
  deriving DecidableEq, Repr

/-- Stop timeout, from `_operation_timeouts["stop"]` in src/src/agent_manager.py. -/
def stopTimeout : ℚ := 10

/-- `AgentManager.stop_agent` (src/src/agent_manager.py, lines 1220-1303),
modelled on the descriptor slice it reads and mutates. Returns the result
(`Bool` success, or the raised `AgentStopError`), the descriptor after the
call, and the list of process calls issued. The not-running branch returns
False, at most polling a stale handle (and clearing it if exited). The
running branch terminates, waits up to the stop timeout, escalates to kill
with a 3s wait; `killFailed` is raised before the descriptor is updated,
while the still-responding verification failure is raised after the
descriptor has been set to (STOPPED, no process). -/
def stopAgentRun (info : Option AgentSt) (env : StopEnv) :
    Except StopErr Bool × Option AgentSt × List StopCall :=
  match info with
  | none => (.ok false, none, [])
  | some i =>
    if i.runningStatus ≠ .running ∨ i.process = none then
      match i.process with
      | some _ =>
        if env.pollExited then
          (.ok false, some { runningStatus := .stopped, process := none }, [.poll])
        else
          (.ok false, some i, [.poll])
      | none => (.ok false, some i, [])
    else
      if env.gracefulWaitOk then
        if env.stillResponding then
          (.error .stillResponding, some { runningStatus := .stopped, process := none },
            [.terminate, .waitFor stopTimeout])
        else
          (.ok true, some { runningStatus := .stopped, process := none },
            [.terminate, .waitFor stopTimeout])
      else
        if env.killWaitOk then
          if env.stillResponding then
            (.error .stillResponding, some { runningStatus := .stopped, process := none },
              [.terminate, .waitFor stopTimeout, .kill, .waitFor 3])
          else
            (.ok true, some { runningStatus := .stopped, process := none },
              [.terminate, .waitFor stopTimeout, .kill, .waitFor 3])
        else
          (.error .killFailed, some i,
            [.terminate, .waitFor stopTimeout, .kill, .waitFor 3])

/-- Duplicate-key rejection raised by the `register_*` methods of
`ResourceManager` (src/src/resource_manager.py). -/
inductive ResourceErrM where
  | duplicateKey
  deriving DecidableEq, Repr

/-- The three independent key→handle namespaces of `ResourceManager`
(src/src/resource_manager.py, lines 37-42): `_processes`, `_tasks` and
`_custom_resources`, modelled as association lists with opaque ℕ handles. -/
structure ResourceManagerSt where
  processes : List (String × ℕ)
  tasks : List (String × ℕ)
  customResources : List (String × ℕ)
  deriving DecidableEq, Repr

/-- `ResourceManager.register_process` (src/src/resource_manager.py, lines
44-59): reject when the key is already in `_processes`, else record it. -/
def registerProcess (key : String) (p : ℕ) (rm : ResourceManagerSt) :
    Except ResourceErrM ResourceManagerSt :=
  if key ∈ rm.processes.map Prod.fst then .error .duplicateKey
  else .ok { rm with processes := rm.processes ++ [(key, p)] }

/-- `ResourceManager.register_task` (src/src/resource_manager.py, lines
61-76): reject when the key is already in `_tasks`, else record it. -/
def registerTask (key : String) (t : ℕ) (rm : ResourceManagerSt) :
    Except ResourceErrM ResourceManagerSt :=
  if key ∈ rm.tasks.map Prod.fst then .error .duplicateKey
  else .ok { rm with tasks := rm.tasks ++ [(key, t)] }

/-- `ResourceManager.register_custom_resource` (src/src/resource_manager.py,
lines 78-96): reject when the key is already in `_custom_resources`, else
record it. -/
def registerCustomResource (key : String) (c : ℕ) (rm : ResourceManagerSt) :
    Except ResourceErrM ResourceManagerSt :=
  if key ∈ rm.customResources.map Prod.fst then .error .duplicateKey
  else .ok { rm with customResources := rm.customResources ++ [(key, c)] }

theorem sortLe_imp_codeBatchOrder {i j : ℕ} {a b : Ev} (h : sortLe (i, a) (j, b)) :
    codeBatchOrder a b := by
  unfold sortLe lexKey at h
  simp only [Prod.Lex.le_iff] at h
  unfold codeBatchOrder evClass
  unfold sortPrio sortKeyStatusTs sortKeyMsgId sortKeyScreenTs at h
  split_ifs at h ⊢
  any_goals (exfalso; simp_all [isScreenType]; done)
  all_goals try simp only [msgIdNum]
  all_goals try norm_num at h ⊢
  all_goals
    try (rcases h with h | ⟨h1, h2⟩ <;>
      [linarith; (rcases h2 with h2 | ⟨h2, h3⟩ <;> linarith)])
  refine ⟨?_, ?_⟩
  · rcases h with h | ⟨h1, -⟩
    · exact le_of_lt h
    · exact le_of_eq h1
  · intro heq
    rcases h with h | ⟨-, h2 | ⟨h2, -⟩⟩
    · omega
    · linarith
    · linarith

/-- C2 (counterexample): the batch of two unrecognised-kind ("other") events
with timestamps 1 and 2 (arrival order oldest first). The code's sort leaves
them oldest-first, while the claimed order (screen/other most-recent-first)
would reverse them. -/
theorem C2_counterexample :
    sortEvents
        [{ type := "custom_kind", data := { asStr := "d1" }, timestamp := 1 },
         { type := "custom_kind", data := { asStr := "d2" }, timestamp := 2 }] =
      [{ type := "custom_kind", data := { asStr := "d1" }, timestamp := 1 },
       { type := "custom_kind", data := { asStr := "d2" }, timestamp := 2 }] ∧
    specSortEvents
        [{ type := "custom_kind", data := { asStr := "d1" }, timestamp := 1 },
         { type := "custom_kind", data := { asStr := "d2" }, timestamp := 2 }] =
      [{ type := "custom_kind", data := { asStr := "d2" }, timestamp := 2 },
       { type := "custom_kind", data := { asStr := "d1" }, timestamp := 1 }] ∧
    sortEvents
        [{ type := "custom_kind", data := { asStr := "d1" }, timestamp := 1 },
         { type := "custom_kind", data := { asStr := "d2" }, timestamp := 2 }] ≠
      specSortEvents
        [{ type := "custom_kind", data := { asStr := "d1" }, timestamp := 1 },
         { type := "custom_kind", data := { asStr := "d2" }, timestamp := 2 }] := by
  refine ⟨by decide, by decide, by decide⟩

/-- C2 (amended): each drain cycle sorts the buffered batch into a permutation
of it that is ordered by the strict priority key: all status_change events
first, most-recent-first by timestamp; then message_update events with numeric
ids ascending by id (ties oldest-first); then screen events most-recent-first
by timestamp; finally all remaining events (including message_update events
without a numeric id) oldest-first by timestamp. -/
theorem C2_amended_sort_order (buf : List Ev) :
    (sortEvents buf).Perm buf ∧ List.Pairwise codeBatchOrder (sortEvents buf) := by
  constructor
  · unfold sortEvents
    have h1 := List.perm_insertionSort sortLe (buf.enum)
    have h2 := h1.map Prod.snd
    simpa [List.enum_map_snd] using h2
  · unfold sortEvents
    have hs := List.sorted_insertionSort sortLe (buf.enum)
    exact List.Pairwise.map Prod.snd
      (fun p q hpq => sortLe_imp_codeBatchOrder (i := p.1) (j := q.1)
        (a := p.2) (b := q.2) hpq) hs

theorem sortEvents_pair (a b : Ev) :
    sortEvents [a, b] = if sortLe (0, a) (1, b) then [a, b] else [b, a] := by
  by_cases h : sortLe (0, a) (1, b) <;>
    simp [sortEvents, List.enum, List.enumFrom, List.insertionSort,
      List.orderedInsert, h]

theorem dedupEvents_pair {x y : Ev} (hx : x.type ≠ "screen_update")
    (hy : y.type ≠ "screen_update") :
    dedupEvents [x, y] [] = if eventKey y = eventKey x then [x] else [x, y] := by
  simp only [dedupEvents, hx, hy, if_neg, List.mem_singleton, List.mem_nil_iff,
    if_false, List.not_mem_nil]
  split_ifs with h1 <;> simp_all [dedupEvents]

theorem processEventBuffer_pair_same {a b : Ev} (ha : a.type ≠ "screen_update")
    (hb : b.type ≠ "screen_update") (hk : eventKey a = eventKey b) :
    processEventBuffer [a, b] = (sortEvents [a, b]).take 1 := by
  unfold processEventBuffer
  rw [sortEvents_pair]
  by_cases h : sortLe (0, a) (1, b)
  · rw [if_pos h, dedupEvents_pair ha hb, if_pos hk.symm]
    simp
  · rw [if_neg h, dedupEvents_pair hb ha, if_pos hk]
    simp

theorem processEventBuffer_pair_diff {a b : Ev} (ha : a.type ≠ "screen_update")
    (hb : b.type ≠ "screen_update") (hk : eventKey a ≠ eventKey b) :
    processEventBuffer [a, b] = sortEvents [a, b] := by
  unfold processEventBuffer
  rw [sortEvents_pair]
  by_cases h : sortLe (0, a) (1, b)
  · rw [if_pos h, dedupEvents_pair ha hb, if_neg (Ne.symm hk)]
  · rw [if_neg h, dedupEvents_pair hb ha, if_neg hk]

theorem sortEvents_pair_length (a b : Ev) : (sortEvents [a, b]).length = 2 := by
  rw [sortEvents_pair]
  split_ifs <;> rfl

theorem eventKey_messageUpdate {e : Ev} (h : e.type = "message_update") :
    eventKey e = .messageUpdate (resolvedMessageId e) (truncate1000 e.data.message) := by
  simp [eventKey, h]

theorem truncate_longMsg_eq : truncate1000 longMsgX = truncate1000 longMsgY := by
  have key : (longMsgX.data).take 1000 = (longMsgY.data).take 1000 := by
    show (List.replicate 1000 'a' ++ ['x']).take 1000 =
      (List.replicate 1000 'a' ++ ['y']).take 1000
    rw [List.take_append_of_le_length (by rw [List.length_replicate]),
      List.take_append_of_le_length (by rw [List.length_replicate])]
  unfold truncate1000
  exact congrArg String.mk key

theorem longMsg_ne : longMsgX ≠ longMsgY := by
  unfold longMsgX longMsgY
  intro h
  have h2 : List.replicate 1000 'a' ++ ['x'] = List.replicate 1000 'a' ++ ['y'] :=
    congrArg String.data h
  have h3 := List.append_cancel_left h2
  simp at h3

/-- C3 (counterexample): (i) two unrecognised-kind events with identical data
but timestamps 0s and 50s — far apart even in 100ms buckets — are deduplicated
to a single dispatched event by the code, although the claimed key
(content-hash, timestamp rounded to 100ms) differs for them; (ii) the two
message_update events with the same id "7" whose 1001-character contents
differ only in the final character are also deduplicated to one event,
contradicting the claim that equal-id events with differing content both
survive. -/
theorem C3_counterexample :
    (processEventBuffer
        [{ type := "custom_kind", data := { asStr := "payload" }, timestamp := 0 },
         { type := "custom_kind", data := { asStr := "payload" }, timestamp := 50 }]).length
      = 1 ∧
    specDedupKey { type := "custom_kind", data := { asStr := "payload" }, timestamp := 0 } ≠
      specDedupKey { type := "custom_kind", data := { asStr := "payload" }, timestamp := 50 } ∧
    (processEventBuffer [ceMsgX, ceMsgY]).length = 1 ∧
    ceMsgX.data.message ≠ ceMsgY.data.message := by
  refine ⟨by decide, by decide, ?_, longMsg_ne⟩
  have hk : eventKey ceMsgX = eventKey ceMsgY := by
    rw [eventKey_messageUpdate (e := ceMsgX) rfl, eventKey_messageUpdate (e := ceMsgY) rfl]
    rw [show resolvedMessageId ceMsgX = resolvedMessageId ceMsgY from by decide]
    exact congrArg _ truncate_longMsg_eq
  rw [processEventBuffer_pair_same (by decide) (by decide) hk, sortEvents_pair]
  split_ifs <;> rfl

/-- C3 (amended): deduplication within one drained batch uses a composite key
per event kind — message_update → (resolved id, hash of the content truncated
to its first 1000 characters); status_change → (status value, timestamp
truncated to whole seconds); all other kinds (neither screen kind nor the two
above) → (event type, hash of the data), with no timestamp component — and
only the first occurrence per key in the sorted batch survives. Consequently
two message_update events with equal id and content agreeing on the first 1000
characters dedupe to one dispatched event; equal-id message_update events
whose contents differ within the first 1000 characters both survive; and two
other-kind events with identical data collapse to one regardless of how far
apart their timestamps are. -/
theorem C3_amended_dedup :
    (∀ e : Ev, e.type = "message_update" →
      eventKey e = .messageUpdate (resolvedMessageId e) (truncate1000 e.data.message)) ∧
    (∀ e : Ev, e.type = "status_change" →
      eventKey e = .statusChange e.data.status (pyInt e.timestamp)) ∧
    (∀ e : Ev, e.type ≠ "message_update" → e.type ≠ "status_change" → ¬isScreenType e →
      eventKey e = .otherK e.type e.data.asStr) ∧
    (∀ a b : Ev, a.type ≠ "screen_update" → b.type ≠ "screen_update" →
      eventKey a = eventKey b → processEventBuffer [a, b] = (sortEvents [a, b]).take 1) ∧
    (∀ a b : Ev, a.type = "message_update" → b.type = "message_update" →
      resolvedMessageId a = resolvedMessageId b →
      truncate1000 a.data.message = truncate1000 b.data.message →
      (processEventBuffer [a, b]).length = 1) ∧
    (∀ a b : Ev, a.type = "message_update" → b.type = "message_update" →
      truncate1000 a.data.message ≠ truncate1000 b.data.message →
      (processEventBuffer [a, b]).length = 2) ∧
    (∀ a b : Ev, a.type = b.type → a.type ≠ "message_update" → a.type ≠ "status_change" →
      ¬isScreenType a → a.data.asStr = b.data.asStr →
      (processEventBuffer [a, b]).length = 1) := by
  have keyMsg : ∀ e : Ev, e.type = "message_update" →
      eventKey e = .messageUpdate (resolvedMessageId e) (truncate1000 e.data.message) :=
    fun _ h => eventKey_messageUpdate h
  have lenSame : ∀ a b : Ev, a.type ≠ "screen_update" → b.type ≠ "screen_update" →
      eventKey a = eventKey b → (processEventBuffer [a, b]).length = 1 := by
    intro a b ha hb hk
    rw [processEventBuffer_pair_same ha hb hk, sortEvents_pair]
    split_ifs <;> rfl
  refine ⟨keyMsg, ?_, ?_, ?_, ?_, ?_, ?_⟩
  · intro e h
    simp [eventKey, h]
  · intro e h1 h2 h3
    simp [eventKey, h1, h2, h3]
  · intro a b ha hb hk
    exact processEventBuffer_pair_same ha hb hk
  · intro a b ha hb hid hmsg
    refine lenSame a b (by rw [ha]; decide) (by rw [hb]; decide) ?_
    rw [keyMsg a ha, keyMsg b hb, hid, hmsg]
  · intro a b ha hb hmsg
    have hk : eventKey a ≠ eventKey b := by
      rw [keyMsg a ha, keyMsg b hb]
      simp [hmsg]
    rw [processEventBuffer_pair_diff (by rw [ha]; decide) (by rw [hb]; decide) hk]
    exact sortEvents_pair_length a b
  · intro a b htype ha hb hscr hdata
    refine lenSame a b ?_ ?_ ?_
    · intro hcon
      exact hscr (Or.inl hcon)
    · intro hcon
      apply hscr
      unfold isScreenType
      rw [htype, hcon]
      decide
    · have hbmsg : b.type ≠ "message_update" := by rw [← htype]; exact ha
      have hbst : b.type ≠ "status_change" := by rw [← htype]; exact hb
      have hbscr : ¬isScreenType b := by
        unfold isScreenType at hscr ⊢
        rw [← htype]
        exact hscr
      simp [eventKey, ha, hb, hscr, hbmsg, hbst, hbscr, htype, hdata]

theorem C3_amended_dedup_witness :
    (processEventBuffer [wMsgA, wMsgB]).length = 1 ∧
    (processEventBuffer [wMsgA, wMsgC]).length = 2 ∧
    (processEventBuffer [wOther1, wOther2]).length = 1 := by
  obtain ⟨k1, k2, k3, p4, p5, p6, p7⟩ := C3_amended_dedup
  exact ⟨p5 wMsgA wMsgB rfl rfl (by decide) (by decide),
    p6 wMsgA wMsgC rfl rfl (by decide),
    p7 wOther1 wOther2 rfl (by decide) (by decide) (by decide) rfl⟩

/-- C4: for the buffered batch [message_update#3, status_change,
message_update#1, message_update#2] (in arrival order, with increasing
timestamps), one drain cycle dispatches status_change first and then the
message updates in ascending id order. -/
theorem C4_dispatch_order :
    processEventBuffer
        [{ type := "message_update", id := some "3", data := { message := "m3" }, timestamp := 1 },
         { type := "status_change", data := { status := "running" }, timestamp := 2 },
         { type := "message_update", id := some "1", data := { message := "m1" }, timestamp := 3 },
         { type := "message_update", id := some "2", data := { message := "m2" }, timestamp := 4 }] =
      [{ type := "status_change", data := { status := "running" }, timestamp := 2 },
       { type := "message_update", id := some "1", data := { message := "m1" }, timestamp := 3 },
       { type := "message_update", id := some "2", data := { message := "m2" }, timestamp := 4 },
       { type := "message_update", id := some "3", data := { message := "m3" }, timestamp := 1 }] := by
  decide

theorem bufferEvent_length_le {buf : List Ev} (h : buf.length ≤ EVENT_BUFFER_SIZE) (e : Ev) :
    (bufferEvent e buf).length ≤ EVENT_BUFFER_SIZE := by
  unfold bufferEvent
  split_ifs with hc <;> simp [EVENT_BUFFER_SIZE] at * <;> omega

/-- C5: starting from an empty buffer, any sequence of `buffer_event`
insertions leaves the buffer length at most EVENT_BUFFER_SIZE = 1024; an
insertion into a buffer at capacity drops exactly the oldest entry (index 0)
and appends the new event at the tail, keeping the length at capacity; an
insertion below capacity merely appends, dropping nothing. -/
theorem C5_buffer_capacity :
    EVENT_BUFFER_SIZE = 1024 ∧
    (∀ evs : List Ev, (evs.foldl (fun b e => bufferEvent e b) []).length ≤ EVENT_BUFFER_SIZE) ∧
    (∀ (buf : List Ev) (e : Ev), buf.length = EVENT_BUFFER_SIZE →
      bufferEvent e buf = buf.tail ++ [e] ∧ (bufferEvent e buf).length = EVENT_BUFFER_SIZE) ∧
    (∀ (buf : List Ev) (e : Ev), buf.length < EVENT_BUFFER_SIZE →
      bufferEvent e buf = buf ++ [e]) := by
  refine ⟨rfl, ?_, ?_, ?_⟩
  · intro evs
    have gen : ∀ (l buf : List Ev), buf.length ≤ EVENT_BUFFER_SIZE →
        (l.foldl (fun b e => bufferEvent e b) buf).length ≤ EVENT_BUFFER_SIZE := by
      intro l
      induction l with
      | nil =>
        intro buf h
        simpa using h
      | cons e rest ih =>
        intro buf h
        exact ih (bufferEvent e buf) (bufferEvent_length_le h e)
    exact gen evs [] (by simp)
  · intro buf e h
    have hc : EVENT_BUFFER_SIZE ≤ buf.length := le_of_eq h.symm
    constructor
    · unfold bufferEvent
      rw [if_pos hc]
    · unfold bufferEvent
      rw [if_pos hc]
      simp only [List.length_append, List.length_tail, List.length_singleton]
      simp [EVENT_BUFFER_SIZE] at h ⊢
      omega
  · intro buf e h
    unfold bufferEvent
    rw [if_neg (by omega)]

theorem C5_buffer_capacity_witness :
    bufferEvent dummyEv (List.replicate EVENT_BUFFER_SIZE dummyEv) =
      (List.replicate EVENT_BUFFER_SIZE dummyEv).tail ++ [dummyEv] ∧
    (bufferEvent dummyEv (List.replicate EVENT_BUFFER_SIZE dummyEv)).length = EVENT_BUFFER_SIZE ∧
    bufferEvent dummyEv [] = [dummyEv] := by
  have h1 := C5_buffer_capacity.2.2.1 (List.replicate EVENT_BUFFER_SIZE dummyEv) dummyEv
    (by rw [List.length_replicate])
  have h2 := C5_buffer_capacity.2.2.2 [] dummyEv (by simp [EVENT_BUFFER_SIZE])
  exact ⟨h1.1, h1.2, by simpa using h2⟩

theorem intervalAt_bounds (n : ℕ) : 1 ≤ intervalAt n ∧ intervalAt n ≤ 5 := by
  induction n with
  | zero =>
    constructor <;> norm_num [intervalAt]
  | succ n ih =>
    unfold intervalAt
    constructor
    · refine le_min ?_ (by norm_num)
      nlinarith [ih.1]
    · exact min_le_right _ _

theorem startPollGo_total (exited valid : ℕ → Bool) :
    ∀ (fuel : ℕ) (n : ℕ) (elapsed interval : ℚ), 1 ≤ interval →
      (30 : ℚ) ≤ elapsed + fuel →
      (startPollGo exited valid (fuel + 1) n elapsed interval).isSome := by
  intro fuel
  induction fuel with
  | zero =>
    intro n elapsed interval hi hb
    have : ¬(elapsed < 30) := by push_cast at hb; linarith
    simp [startPollGo, this]
  | succ fuel ih =>
    intro n elapsed interval hi hb
    by_cases hlt : elapsed < 30
    · rw [show fuel + 1 + 1 = (fuel + 1) + 1 from rfl]
      unfold startPollGo
      rw [if_pos hlt]
      by_cases he : exited n
      · simp [he]
      · by_cases hv : valid n
        · simp [he, hv]
        · have hrec := ih (n + 1) (elapsed + interval) (min (interval * (3 / 2)) 5)
            (le_min (by nlinarith) (by norm_num)) (by push_cast at hb ⊢; linarith)
          simp only [he, hv, if_neg, Bool.false_eq_true, if_false]
          obtain ⟨r, hr⟩ := Option.isSome_iff_exists.mp hrec
          rw [hr]
          simp
    · unfold startPollGo
      rw [if_neg hlt]
      simp

theorem startPollGo_sleeps (exited valid : ℕ → Bool) :
    ∀ (fuel n : ℕ) (elapsed : ℚ) (ex : StartExit) (sleeps : List ℚ),
      startPollGo exited valid fuel n elapsed (intervalAt n) = some (ex, sleeps) →
      sleeps = (List.range' n sleeps.length).map intervalAt := by
  intro fuel
  induction fuel with
  | zero =>
    intro n elapsed ex sleeps h
    simp [startPollGo] at h
  | succ fuel ih =>
    intro n elapsed ex sleeps h
    unfold startPollGo at h
    by_cases hlt : elapsed < 30
    · rw [if_pos hlt] at h
      by_cases he : exited n
      · simp only [he, if_true] at h
        obtain ⟨-, hs⟩ := Prod.mk.injEq .. ▸ Option.some.injEq .. ▸ h
        simp [← hs]
      · by_cases hv : valid n
        · simp only [he, hv, Bool.false_eq_true, if_false, if_true] at h
          obtain ⟨-, hs⟩ := Prod.mk.injEq .. ▸ Option.some.injEq .. ▸ h
          simp [← hs]
        · simp only [he, hv, Bool.false_eq_true, if_false] at h
          have hstep : min (intervalAt n * (3 / 2)) 5 = intervalAt (n + 1) := rfl
          rw [hstep] at h
          cases hrec : startPollGo exited valid fuel (n + 1) (elapsed + intervalAt n)
              (intervalAt (n + 1)) with
          | none =>
            rw [hrec] at h
            simp at h
          | some pr =>
            obtain ⟨ex2, sleeps2⟩ := pr
            rw [hrec] at h
            simp only [Option.some.injEq, Prod.mk.injEq] at h
            obtain ⟨-, hs⟩ := h
            have ihe := ih (n + 1) (elapsed + intervalAt n) ex2 sleeps2 hrec
            subst hs
            simp only [List.length_cons]
            rw [List.range'_succ, List.map_cons]
            exact congrArg (intervalAt n :: ·) ihe
    · rw [if_neg hlt] at h
      obtain ⟨-, hs⟩ := Prod.mk.injEq .. ▸ Option.some.injEq .. ▸ h
      simp [← hs]

/-- C6: after spawning, `start_agent` polls liveness through the loop
`startPollGo` and the wait terminates in exactly one of three ways: (a) the
validation succeeds, the handle is stored and the descriptor marked RUNNING;
(b) the subprocess has exited, yielding AgentStartError with the captured
stderr; (c) the 30s budget elapses, in which case the process is terminated —
graceful terminate, a 5s wait, then kill if the wait expired — before
TimeoutError is raised. The sleeps performed follow the adaptive schedule:
1.0s initially, multiplied by 1.5 after each failed attempt, capped at 5.0s. -/
theorem C6_start_polling :
    (∀ (exited valid : ℕ → Bool) (termWaitOk : Bool) (stderr : String) (pid : ℕ)
        (info : AgentSt),
      ∃ r, startAgentWait exited valid termWaitOk stderr pid info = some r ∧
        ((r.1 = .ok pid ∧ r.2.1 = { runningStatus := .running, process := some pid }) ∨
         (r.1 = .startError stderr ∧ r.2.1 = info) ∨
         (r.1 = .timeoutError (if termWaitOk then [.terminate, .wait5]
            else [.terminate, .wait5, .kill]) ∧ r.2.1 = info))) ∧
    (∀ (exited valid : ℕ → Bool) (termWaitOk : Bool) (stderr : String) (pid : ℕ)
        (info : AgentSt) (ex : StartResult) (st : AgentSt) (sleeps : List ℚ),
      startAgentWait exited valid termWaitOk stderr pid info = some (ex, st, sleeps) →
      sleeps = (List.range sleeps.length).map intervalAt) ∧
    intervalAt 0 = 1 ∧
    (∀ n, intervalAt (n + 1) = min (intervalAt n * (3 / 2)) 5) ∧
    (∀ n, 1 ≤ intervalAt n ∧ intervalAt n ≤ 5) := by
  refine ⟨?_, ?_, rfl, fun n => rfl, intervalAt_bounds⟩
  · intro exited valid termWaitOk stderr pid info
    have ht := startPollGo_total exited valid 30 0 0 1 le_rfl (by norm_num)
    obtain ⟨⟨ex, sleeps⟩, hgo⟩ := Option.isSome_iff_exists.mp ht
    unfold startAgentWait
    rw [hgo]
    cases ex with
    | validated => exact ⟨_, rfl, Or.inl ⟨rfl, rfl⟩⟩
    | procExited => exact ⟨_, rfl, Or.inr (Or.inl ⟨rfl, rfl⟩)⟩
    | timedOut => exact ⟨_, rfl, Or.inr (Or.inr ⟨rfl, rfl⟩)⟩
  · intro exited valid termWaitOk stderr pid info ex st sleeps h
    unfold startAgentWait at h
    cases hgo : startPollGo exited valid 31 0 0 1 with
    | none =>
      rw [hgo] at h
      simp at h
    | some pr =>
      obtain ⟨ex2, sleeps2⟩ := pr
      rw [hgo] at h
      have hone : (1 : ℚ) = intervalAt 0 := rfl
      rw [hone] at hgo
      have hs2 := startPollGo_sleeps exited valid 31 0 0 ex2 sleeps2 hgo
      have hsleeps : sleeps = sleeps2 := by
        clear hs2
        cases ex2 <;> simp_all
      rw [hsleeps, List.range_eq_range']
      exact hs2

theorem C6_start_polling_witness :
    startAgentWait (fun _ => false) (fun _ => true) true "boom" 7
        { runningStatus := .stopped, process := none } =
      some (.ok 7, { runningStatus := .running, process := some 7 }, []) ∧
    ([] : List ℚ) = (List.range (0 : ℕ)).map intervalAt := by
  constructor
  · rfl
  · exact C6_start_polling.2.1 (fun _ => false) (fun _ => true) true "boom" 7
      { runningStatus := .stopped, process := none } (.ok 7)
      { runningStatus := .running, process := some 7 } [] rfl

/-- C7: in `stream_events`, a transport error with reconnection disabled
propagates immediately (timeouts as TimeoutError, the rest as AgentAPIError);
with reconnection enabled the handler increments the attempt counter and
raises the terminal stream error as soon as it exceeds the bounded attempt
count; otherwise it multiplies the delay by the backoff factor, caps it at
the max delay, applies the jitter sample and sleeps at least 0.1s and at most
`max(0.1, delay*(1+jitter))`; and every successful connection resets the
attempt counter to 0 and the delay to the configured initial delay. -/
theorem C7_stream_reconnect :
    (∀ (cfg : ReconnectCfg) (st : ReconnectSt) (kind : TransportErr) (u : ℚ),
      cfg.reconnect = false →
      onTransportError cfg st kind u =
        .error (match kind with | .timeout => .timeoutErr | _ => .apiErr)) ∧
    (∀ (cfg : ReconnectCfg) (st : ReconnectSt) (kind : TransportErr) (u : ℚ),
      cfg.reconnect = true → cfg.maxAttempts < st.attempt + 1 →
      onTransportError cfg st kind u = .error .terminal) ∧
    (∀ (cfg : ReconnectCfg) (st : ReconnectSt) (kind : TransportErr) (u : ℚ),
      cfg.reconnect = true → st.attempt + 1 ≤ cfg.maxAttempts →
      onTransportError cfg st kind u =
        .ok ({ attempt := st.attempt + 1,
               delay := min (st.delay * cfg.backoffFactor) cfg.maxDelay },
          max (1 / 10) (min (st.delay * cfg.backoffFactor) cfg.maxDelay + u))) ∧
    (∀ (cfg : ReconnectCfg) (st : ReconnectSt) (kind : TransportErr) (u : ℚ)
        (st2 : ReconnectSt) (sleep : ℚ),
      |u| ≤ min (st.delay * cfg.backoffFactor) cfg.maxDelay * cfg.jitter →
      onTransportError cfg st kind u = .ok (st2, sleep) →
      (1 : ℚ) / 10 ≤ sleep ∧
      sleep ≤ max ((1 : ℚ) / 10)
        (min (st.delay * cfg.backoffFactor) cfg.maxDelay * (1 + cfg.jitter))) ∧
    (∀ (cfg : ReconnectCfg) (st : ReconnectSt),
      onStreamConnect cfg st = { attempt := 0, delay := cfg.initialDelay }) ∧
    (∀ (cfg : ReconnectCfg) (st : ReconnectSt) (rest : List StreamCycle),
      streamLoop cfg st (.connected :: rest) =
        streamLoop cfg { attempt := 0, delay := cfg.initialDelay } rest) ∧
    (∀ (cfg : ReconnectCfg) (st : ReconnectSt) (kind : TransportErr) (u : ℚ)
        (rest : List StreamCycle),
      cfg.reconnect = true → cfg.maxAttempts < st.attempt + 1 →
      streamLoop cfg st (.failed kind u :: rest) = .error .terminal) := by
  have hdis : ∀ (cfg : ReconnectCfg) (st : ReconnectSt) (kind : TransportErr) (u : ℚ),
      cfg.reconnect = false →
      onTransportError cfg st kind u =
        .error (match kind with | .timeout => .timeoutErr | _ => .apiErr) := by
    intro cfg st kind u h
    unfold onTransportError
    rw [if_pos (by simp [h])]
  have hterm : ∀ (cfg : ReconnectCfg) (st : ReconnectSt) (kind : TransportErr) (u : ℚ),
      cfg.reconnect = true → cfg.maxAttempts < st.attempt + 1 →
      onTransportError cfg st kind u = .error .terminal := by
    intro cfg st kind u h hm
    unfold onTransportError
    rw [if_neg (by simp [h]), if_pos hm]
  have hok : ∀ (cfg : ReconnectCfg) (st : ReconnectSt) (kind : TransportErr) (u : ℚ),
      cfg.reconnect = true → st.attempt + 1 ≤ cfg.maxAttempts →
      onTransportError cfg st kind u =
        .ok ({ attempt := st.attempt + 1,
               delay := min (st.delay * cfg.backoffFactor) cfg.maxDelay },
          max (1 / 10) (min (st.delay * cfg.backoffFactor) cfg.maxDelay + u)) := by
    intro cfg st kind u h hm
    unfold onTransportError
    rw [if_neg (by simp [h]), if_neg (by omega)]
  refine ⟨hdis, hterm, hok, ?_, fun _ _ => rfl, fun _ _ _ => rfl, ?_⟩
  · intro cfg st kind u st2 sleep hu heq
    unfold onTransportError at heq
    by_cases hrc : cfg.reconnect
    · rw [if_neg (by simp [hrc])] at heq
      by_cases hm : cfg.maxAttempts < st.attempt + 1
      · rw [if_pos hm] at heq
        exact absurd heq (by simp)
      · rw [if_neg hm] at heq
        simp only [Except.ok.injEq, Prod.mk.injEq] at heq
        obtain ⟨-, hs⟩ := heq
        subst hs
        constructor
        · exact le_max_left _ _
        · apply max_le_max_left
          have := abs_le.mp hu
          nlinarith [this.2]
    · rw [if_pos (by simp [hrc])] at heq
      exact absurd heq (by simp)
  · intro cfg st kind u rest h hm
    unfold streamLoop
    rw [hterm cfg st kind u h hm]

theorem C7_stream_reconnect_witness :
    onTransportError { defaultStreamCfg with reconnect := false }
        { attempt := 0, delay := 5 } .timeout 0 = .error .timeoutErr ∧
    onTransportError defaultStreamCfg { attempt := 5, delay := 5 } .http 0 = .error .terminal ∧
    onTransportError defaultStreamCfg { attempt := 0, delay := 5 } .http 1 =
      .ok ({ attempt := 1, delay := 10 }, 11) ∧
    streamLoop defaultStreamCfg { attempt := 5, delay := 5 } [.failed .http 0] =
      .error .terminal := by
  obtain ⟨p1, p2, p3, p4, p5, p6, p7⟩ := C7_stream_reconnect
  refine ⟨p1 _ _ _ _ rfl,
    p2 _ _ _ _ rfl (by norm_num [defaultStreamCfg, MAX_RECONNECT_ATTEMPTS]), ?_,
    p7 _ _ _ _ _ rfl (by norm_num [defaultStreamCfg, MAX_RECONNECT_ATTEMPTS])⟩
  have h := p3 defaultStreamCfg { attempt := 0, delay := 5 } .http 1 rfl
    (by norm_num [defaultStreamCfg, MAX_RECONNECT_ATTEMPTS])
  rw [h]
  norm_num [defaultStreamCfg, DEFAULT_RETRY_BACKOFF_FACTOR, DEFAULT_RETRY_MAX_DELAY,
    min_def, max_def]

/-- C1 (code evaluated at the failing input): `restart_agent` on a running
agent — and even on a stopped one — blocks forever: holding the per-agent lock
taken by `_track_operation("restart", agent)`, it awaits the nested
`stop_agent`/`start_agent`, whose `_track_operation` awaits the same
non-reentrant per-agent lock a second time from the same task. `switch_agent`
to a different agent deadlocks the same way when it reaches `start_agent`.
The leaf operations and the idempotent switch complete normally, releasing
every lock. -/
theorem C1_restart_switch_deadlock :
    runLockTrace (restartAgentLockTrace .claude true) [] = none ∧
    runLockTrace (restartAgentLockTrace .claude false) [] = none ∧
    runLockTrace (switchAgentLockTrace .claude (some .goose)) [] = none ∧
    runLockTrace (switchAgentLockTrace .claude (some .claude)) [] = some [] ∧
    runLockTrace (stopAgentLockTrace .claude) [] = some [] ∧
    runLockTrace (startAgentLockTrace .claude) [] = some [] := by
  refine ⟨by decide, by decide, by decide, by decide, by decide, by decide⟩

/-- C8: `stop_agent` on an agent whose descriptor does not record it as
running (status ≠ RUNNING or no process handle) returns False without issuing
any process-termination call: the only call it may make is a `poll()` on a
stale handle. An entirely unknown agent likewise yields False with no calls. -/
theorem C8_stop_not_running :
    (∀ (i : AgentSt) (env : StopEnv),
      i.runningStatus ≠ .running ∨ i.process = none →
      (stopAgentRun (some i) env).1 = .ok false ∧
      ∀ c ∈ (stopAgentRun (some i) env).2.2, c = .poll) ∧
    (∀ env : StopEnv, stopAgentRun none env = (.ok false, none, [])) := by
  constructor
  · intro i env h
    simp only [stopAgentRun]
    rw [if_pos h]
    cases hp : i.process with
    | none => simp
    | some pid => split_ifs <;> simp
  · intro env
    rfl

theorem C8_stop_not_running_witness :
    (stopAgentRun (some { runningStatus := .stopped, process := none })
        { pollExited := false, gracefulWaitOk := true, killWaitOk := true,
          stillResponding := false }).1 = .ok false ∧
    ∀ c ∈ (stopAgentRun (some { runningStatus := .stopped, process := none })
        { pollExited := false, gracefulWaitOk := true, killWaitOk := true,
          stillResponding := false }).2.2, c = .poll := by
  exact C8_stop_not_running.1 { runningStatus := .stopped, process := none }
    { pollExited := false, gracefulWaitOk := true, killWaitOk := true,
      stillResponding := false } (Or.inl (by decide))

/-- C9: whenever `stop_agent` raises `AgentStopError` because the agent still
responds to the post-termination re-validation, the descriptor has already
been mutated before the raise: the process handle is cleared and the running
status set to STOPPED. The pre-call descriptor state is not restored. -/
theorem C9_stop_error_mutates (info : Option AgentSt) (env : StopEnv)
    (h : (stopAgentRun info env).1 = .error .stillResponding) :
    (stopAgentRun info env).2.1 = some { runningStatus := .stopped, process := none } := by
  match info with
  | none => simp [stopAgentRun] at h
  | some i =>
    obtain ⟨rs, proc⟩ := i
    cases proc <;>
      (simp only [stopAgentRun] at h ⊢; split_ifs at h ⊢ <;> simp_all)

theorem C9_stop_error_mutates_witness :
    (stopAgentRun (some { runningStatus := .running, process := some 42 })
        { pollExited := false, gracefulWaitOk := true, killWaitOk := true,
          stillResponding := true }).2.1 =
      some { runningStatus := .stopped, process := none } :=
  C9_stop_error_mutates (some { runningStatus := .running, process := some 42 })
    { pollExited := false, gracefulWaitOk := true, killWaitOk := true,
      stillResponding := true } rfl

/-- C10: the ResourceManager keeps processes, tasks and custom resources in
three independent key namespaces. Each `register_*` rejects a key only when it
is already present in its own namespace — presence in the other two is
irrelevant — so for any key fresh in all three namespaces, registering it as a
process, then as a task, then as a custom resource all succeed in sequence. -/
theorem C10_namespaces :
    (∀ (rm : ResourceManagerSt) (k : String) (p : ℕ),
      k ∉ rm.processes.map Prod.fst →
      registerProcess k p rm = .ok { rm with processes := rm.processes ++ [(k, p)] }) ∧
    (∀ (rm : ResourceManagerSt) (k : String) (p : ℕ),
      k ∈ rm.processes.map Prod.fst → registerProcess k p rm = .error .duplicateKey) ∧
    (∀ (rm : ResourceManagerSt) (k : String) (t : ℕ),
      k ∉ rm.tasks.map Prod.fst →
      registerTask k t rm = .ok { rm with tasks := rm.tasks ++ [(k, t)] }) ∧
    (∀ (rm : ResourceManagerSt) (k : String) (t : ℕ),
      k ∈ rm.tasks.map Prod.fst → registerTask k t rm = .error .duplicateKey) ∧
    (∀ (rm : ResourceManagerSt) (k : String) (c : ℕ),
      k ∉ rm.customResources.map Prod.fst →
      registerCustomResource k c rm =
        .ok { rm with customResources := rm.customResources ++ [(k, c)] }) ∧
    (∀ (rm : ResourceManagerSt) (k : String) (c : ℕ),
      k ∈ rm.customResources.map Prod.fst →
      registerCustomResource k c rm = .error .duplicateKey) ∧
    (∀ (rm : ResourceManagerSt) (k : String) (p t c : ℕ),
      k ∉ rm.processes.map Prod.fst → k ∉ rm.tasks.map Prod.fst →
      k ∉ rm.customResources.map Prod.fst →
      (registerProcess k p rm >>= registerTask k t >>= registerCustomResource k c) =
        .ok { processes := rm.processes ++ [(k, p)], tasks := rm.tasks ++ [(k, t)],
              customResources := rm.customResources ++ [(k, c)] }) := by
  have hp : ∀ (rm : ResourceManagerSt) (k : String) (p : ℕ),
      k ∉ rm.processes.map Prod.fst →
      registerProcess k p rm = .ok { rm with processes := rm.processes ++ [(k, p)] } := by
    intro rm k p h
    unfold registerProcess
    rw [if_neg h]
  have ht : ∀ (rm : ResourceManagerSt) (k : String) (t : ℕ),
      k ∉ rm.tasks.map Prod.fst →
      registerTask k t rm = .ok { rm with tasks := rm.tasks ++ [(k, t)] } := by
    intro rm k t h
    unfold registerTask
    rw [if_neg h]
  have hc : ∀ (rm : ResourceManagerSt) (k : String) (c : ℕ),
      k ∉ rm.customResources.map Prod.fst →
      registerCustomResource k c rm =
        .ok { rm with customResources := rm.customResources ++ [(k, c)] } := by
    intro rm k c h
    unfold registerCustomResource
    rw [if_neg h]
  refine ⟨hp, ?_, ht, ?_, hc, ?_, ?_⟩
  · intro rm k p h
    unfold registerProcess
    rw [if_pos h]
  · intro rm k t h
    unfold registerTask
    rw [if_pos h]
  · intro rm k c h
    unfold registerCustomResource
    rw [if_pos h]
  · intro rm k p t c h1 h2 h3
    rw [hp rm k p h1]
    show (registerTask k t _ >>= registerCustomResource k c) = _
    rw [ht _ k t (by simpa using h2)]
    show registerCustomResource k c _ = _
    rw [hc _ k c (by simpa using h3)]

theorem C10_namespaces_witness :
    (registerProcess "agent" 1 { processes := [], tasks := [], customResources := [] } >>=
        registerTask "agent" 2 >>= registerCustomResource "agent" 3) =
      .ok { processes := [("agent", 1)], tasks := [("agent", 2)],
            customResources := [("agent", 3)] } := by
  have h := (C10_namespaces.2.2.2.2.2.2)
    { processes := [], tasks := [], customResources := [] } "agent" 1 2 3
    (by simp) (by simp) (by simp)
  simpa using h
